import Mathlib

/-!
Verification of the authentication slice of the skyframe frontend:
the token-authenticated HTTP client (axios instance with request and
response interceptors, `src/lib/config.ts`) and the route-guard
middleware (`middleware` in the Next.js middleware file).

The embedding is shallow: the Token Store is the value of the single
`token` entry of the browser's persistent storage, interceptor handlers
become pure functions from the store and their argument to an explicit
record of effects (updated store, navigations fired, value handed to
the caller), and the middleware becomes a pure function from a request
to its routing decision.
-/

namespace Skyframe

/-- JavaScript truthiness of a nullable string value: `null`/`undefined`
and the empty string are falsy; every other string is truthy. -/
def jsTruthy : Option String → Bool
  | none => false
  | some s => !(s == "")

/-- JavaScript `s.startsWith(p)`: `p` is a prefix of `s` (character-wise). -/
def jsStartsWith (s p : String) : Bool :=
  List.isPrefixOf p.data s.data

/-- The Token Store: the value of the `token` entry of `localStorage`,
`none` when the entry is absent. -/
abbrev TokenStore := Option String

/-- The call `localStorage.getItem('token')` on a given store state. -/
def localStorageGetItem (store : TokenStore) : Option String :=
  store

/-- The call `localStorage.removeItem('token')`: the store state afterward. -/
def localStorageRemoveItem (_store : TokenStore) : TokenStore :=
  none

/-- Headers of an outbound request; the client only ever touches the
`Authorization` header, so only it is tracked. -/
structure Headers where
  authorization : Option String := none
  deriving Repr, DecidableEq

/-- An axios request configuration as seen by the request interceptor. -/
structure RequestConfig where
  headers : Headers
  deriving Repr, DecidableEq

/-- The fulfilled handler of `api.interceptors.request.use`
(`src/lib/config.ts`): read the token from storage; if it is truthy, set
the `Authorization` header to the bearer credential built from it;
otherwise return the configuration untouched. -/
def requestInterceptorFulfilled (store : TokenStore) (cfg : RequestConfig) :
    RequestConfig :=
  let token := localStorageGetItem store
  if jsTruthy token then
    { cfg with
        headers := { cfg.headers with
          authorization := some ("Bearer " ++ token.getD "") } }
  else
    cfg

/-- An HTTP response as seen by the response interceptor. -/
structure Response where
  status : Nat
  deriving Repr, DecidableEq

/-- An axios error object; `response` is `none` when the failure happened
before any response arrived (transport or network failure). -/
structure AxiosError where
  response : Option Response
  deriving Repr, DecidableEq

/-- The test `error.response?.status === 401`: optional chaining makes the
comparison false when no response is attached to the error. -/
def is401 (error : AxiosError) : Bool :=
  match error.response with
  | some r => r.status == 401
  | none => false

deriving instance DecidableEq for Except

/-- A JavaScript error as it settles the caller's promise chain: either
the axios error object the handler was given to re-reject, or an
exception thrown inside the handler body itself — server-side,
`localStorage` is not defined and touching it throws a `ReferenceError`,
which then rejects the promise in place of the original error. -/
inductive JsError where
  | axios (error : AxiosError)
  | referenceError (message : String)
  deriving Repr, DecidableEq

/-- The message of the `ReferenceError` thrown by accessing
`localStorage` in an environment that does not define it. -/
def localStorageUndefinedMessage : String :=
  "localStorage is not defined"

/-- How a settled axios-level outcome reads at the caller when the
installed handler runs without throwing: fulfilled values pass through
and rejections carry the axios error object. -/
def liftOutcome : Except AxiosError Response → Except JsError Response
  | Except.ok response => Except.ok response
  | Except.error error => Except.error (JsError.axios error)

/-- One run of the response interceptor, as explicit effects: the Token
Store afterward, the list of targets assigned to `window.location.href`
during the run, and the settled value handed to the caller. -/
structure InterceptorRun where
  store : TokenStore
  navigations : List String
  result : Except JsError Response
  deriving Repr, DecidableEq

/-- The fulfilled handler of `api.interceptors.response.use`: the identity
`(response) => response`, touching neither storage nor window, so it is
exact in every environment. -/
def responseInterceptorFulfilled (store : TokenStore) (response : Response) :
    InterceptorRun :=
  { store := store, navigations := [], result := Except.ok response }

/-- The rejected handler of `api.interceptors.response.use`, with the
execution environment explicit: `windowDefined` models
`typeof window !== 'undefined'`, and wherever `window` is undefined so is
`localStorage`. On a 401 the handler first runs the unguarded
`localStorage.removeItem('token')`: in a window-less environment that
access throws a `ReferenceError` right there, so the store is left
untouched, no navigation fires, and the thrown error — not the original
one — settles the caller's promise; with a window present the token is
removed, `/sign_in` is assigned to `window.location.href`, and
`Promise.reject(error)` re-rejects the original error. On any other
error the handler touches neither `localStorage` nor `window` and
re-rejects the original error in every environment. -/
def responseInterceptorRejected (windowDefined : Bool) (store : TokenStore)
    (error : AxiosError) : InterceptorRun :=
  if is401 error then
    if windowDefined then
      { store := localStorageRemoveItem store
        navigations := ["/sign_in"]
        result := Except.error (JsError.axios error) }
    else
      { store := store
        navigations := []
        result := Except.error
          (JsError.referenceError localStorageUndefinedMessage) }
  else
    { store := store, navigations := [],
      result := Except.error (JsError.axios error) }

/-- Dispatch of a settled outcome through the pair of handlers installed
by `api.interceptors.response.use`: fulfilled responses go to the first
handler, rejections to the second. -/
def responseInterceptor (windowDefined : Bool) (store : TokenStore) :
    Except AxiosError Response → InterceptorRun
  | Except.ok response => responseInterceptorFulfilled store response
  | Except.error error => responseInterceptorRejected windowDefined store error

/-- Whether a settled outcome is a rejection whose error carries status 401. -/
def isError401 : Except AxiosError Response → Bool
  | Except.ok _ => false
  | Except.error error => is401 error

/-- An inbound request as seen by the middleware: its cookies (name/value
pairs), `request.nextUrl.pathname`, and `request.url`. -/
structure NextRequest where
  cookies : List (String × String)
  pathname : String
  url : String
  deriving Repr, DecidableEq

/-- The call `request.cookies.get(name)?.value`. -/
def cookiesGet (cookies : List (String × String)) (name : String) :
    Option String :=
  (cookies.find? (fun c => c.1 == name)).map (fun c => c.2)

/-- The value `new URL(pathname, base)`: the pathname is absolute, so the
resulting URL has exactly that pathname, resolved against the base. -/
structure URL where
  pathname : String
  base : String
  deriving Repr, DecidableEq

/-- The middleware's decision: `NextResponse.redirect(url)` or
`NextResponse.next()`. -/
inductive MiddlewareResult where
  | redirect (url : URL)
  | next
  deriving Repr, DecidableEq

/-- The `middleware` function of the route guard: read the `token` cookie;
on a path starting with `/dashboard` with no (falsy) token, redirect to
`new URL('/sign_in', request.url)`; otherwise pass the request through. -/
def middleware (request : NextRequest) : MiddlewareResult :=
  let token := cookiesGet request.cookies "token"
  if jsStartsWith request.pathname "/dashboard" then
    if !(jsTruthy token) then
      MiddlewareResult.redirect { pathname := "/sign_in", base := request.url }
    else
      MiddlewareResult.next
  else
    MiddlewareResult.next

/-- C1 as stated is false: with no `window` (hence no `localStorage`),
the removal at the head of the 401 branch throws a `ReferenceError`, so
the previously stored token survives the handled 401. -/
theorem c1_401_clears_token_store_counterexample :
    ¬ (responseInterceptorRejected false (some "abc")
        { response := some { status := 401 } }).store = none := by
  decide

/-- C1 (amended): in a browser environment — `window`, and hence
`localStorage`, defined — every handled 401 leaves the Token Store empty
whatever was stored before; in a window-less environment the
`localStorage` access throws first and the store is left exactly as it
was. -/
theorem c1_401_clears_token_store (store : TokenStore) (error : AxiosError)
    (h : is401 error = true) :
    (responseInterceptorRejected true store error).store = none ∧
    (responseInterceptorRejected false store error).store = store := by
  refine ⟨?_, ?_⟩ <;>
    simp [responseInterceptorRejected, h, localStorageRemoveItem]

/-- Witness for the amended C1 at a concrete 401 with token `abc` stored. -/
theorem c1_401_clears_token_store_witness :
    is401 { response := some { status := 401 } } = true ∧
    ((responseInterceptorRejected true (some "abc")
        { response := some { status := 401 } }).store = none ∧
     (responseInterceptorRejected false (some "abc")
        { response := some { status := 401 } }).store = some "abc") :=
  ⟨by decide,
   c1_401_clears_token_store (some "abc")
     { response := some { status := 401 } } (by decide)⟩

/-- C2 as stated is false: with no `window`, the `localStorage` access
throws before `Promise.reject(error)` is reached, so the caller does not
receive the original 401 error object. -/
theorem c2_401_error_propagated_counterexample :
    ¬ (responseInterceptorRejected false (some "abc")
        { response := some { status := 401 } }).result =
      Except.error (JsError.axios { response := some { status := 401 } }) := by
  decide

/-- C2 (amended): in a browser environment a handled 401 settles the
caller's promise with the original error object — the clear-and-navigate
side effects do not replace or swallow it; in a window-less environment
the handler throws at the `localStorage` access and the caller receives
that `ReferenceError` instead. -/
theorem c2_401_error_propagated (store : TokenStore) (error : AxiosError)
    (h : is401 error = true) :
    (responseInterceptorRejected true store error).result =
      Except.error (JsError.axios error) ∧
    (responseInterceptorRejected false store error).result =
      Except.error (JsError.referenceError localStorageUndefinedMessage) := by
  refine ⟨?_, ?_⟩ <;> simp [responseInterceptorRejected, h]

/-- Witness for the amended C2 at a concrete 401. -/
theorem c2_401_error_propagated_witness :
    is401 { response := some { status := 401 } } = true ∧
    ((responseInterceptorRejected true (some "abc")
        { response := some { status := 401 } }).result =
      Except.error (JsError.axios { response := some { status := 401 } }) ∧
     (responseInterceptorRejected false (some "abc")
        { response := some { status := 401 } }).result =
      Except.error (JsError.referenceError localStorageUndefinedMessage)) :=
  ⟨by decide,
   c2_401_error_propagated (some "abc")
     { response := some { status := 401 } } (by decide)⟩

/-- C3 as stated is false: in an environment with no `window` (server-side
execution), a 401 response triggers zero navigations, not exactly one. -/
theorem c3_navigation_once_counterexample :
    ¬ (responseInterceptorRejected false (some "abc")
        { response := some { status := 401 } }).navigations.length = 1 := by
  decide

/-- C3 (amended): for every 401 handled by the response interceptor, the
navigation to `/sign_in` fires exactly once when a `window` object exists,
and zero times when it does not. -/
theorem c3_navigation_once_when_window (store : TokenStore)
    (error : AxiosError) (h : is401 error = true) :
    (responseInterceptorRejected true store error).navigations =
      ["/sign_in"] ∧
    (responseInterceptorRejected false store error).navigations = [] := by
  refine ⟨?_, ?_⟩ <;> simp [responseInterceptorRejected, h]

/-- Witness for the amended C3 at a concrete 401. -/
theorem c3_navigation_once_when_window_witness :
    is401 { response := some { status := 401 } } = true ∧
    ((responseInterceptorRejected true (some "abc")
        { response := some { status := 401 } }).navigations = ["/sign_in"] ∧
     (responseInterceptorRejected false (some "abc")
        { response := some { status := 401 } }).navigations = []) :=
  ⟨by decide,
   c3_navigation_once_when_window (some "abc")
     { response := some { status := 401 } } (by decide)⟩

/-- C4: a request issued while a (truthy) token is stored goes out with
the `Authorization` header set to `Bearer ` followed by exactly the
stored token. -/
theorem c4_bearer_header_attached (token : String) (cfg : RequestConfig)
    (h : token ≠ "") :
    (requestInterceptorFulfilled (some token) cfg).headers.authorization =
      some ("Bearer " ++ token) := by
  simp [requestInterceptorFulfilled, localStorageGetItem, jsTruthy, h]

/-- Witness for C4 with token `abc` on a header-less request. -/
theorem c4_bearer_header_attached_witness :
    "abc" ≠ "" ∧
    (requestInterceptorFulfilled (some "abc")
        { headers := { authorization := none } }).headers.authorization =
      some "Bearer abc" :=
  ⟨by decide,
   c4_bearer_header_attached "abc" { headers := { authorization := none } }
     (by decide)⟩

/-- C5: a request issued while no token is stored passes through the
request interceptor completely unchanged; in particular no
`Authorization` header is attached. -/
theorem c5_no_token_request_unchanged (cfg : RequestConfig) :
    requestInterceptorFulfilled none cfg = cfg := by
  simp [requestInterceptorFulfilled, localStorageGetItem, jsTruthy]

/-- C6: every settled outcome other than a 401 rejection — success, any
other error status, or a transport failure with no response — leaves the
Token Store unchanged, fires no navigation, and is handed to the caller
unmodified. -/
theorem c6_non_401_outcomes_frame (windowDefined : Bool) (store : TokenStore)
    (outcome : Except AxiosError Response) (h : isError401 outcome = false) :
    responseInterceptor windowDefined store outcome =
      { store := store, navigations := [], result := liftOutcome outcome } := by
  cases outcome with
  | ok response => rfl
  | error error =>
      have h4 : is401 error = false := by simpa [isError401] using h
      simp [responseInterceptor, responseInterceptorRejected, liftOutcome, h4]

/-- Witness for C6 on a 404 rejection, a transport failure, and a 200
success, each with a token stored beforehand. -/
theorem c6_non_401_outcomes_frame_witness :
    isError401 (Except.error { response := some { status := 404 } }) = false ∧
    responseInterceptor true (some "abc")
        (Except.error { response := some { status := 404 } }) =
      { store := some "abc", navigations := [],
        result := Except.error
          (JsError.axios { response := some { status := 404 } }) } ∧
    responseInterceptor true (some "abc")
        (Except.error { response := none }) =
      { store := some "abc", navigations := [],
        result := Except.error (JsError.axios { response := none }) } ∧
    responseInterceptor true (some "abc") (Except.ok { status := 200 }) =
      { store := some "abc", navigations := [],
        result := Except.ok { status := 200 } } :=
  ⟨by decide,
   c6_non_401_outcomes_frame true (some "abc") _ (by decide),
   c6_non_401_outcomes_frame true (some "abc") _ (by decide),
   c6_non_401_outcomes_frame true (some "abc") _ (by decide)⟩

/-- C7: a request whose path starts with `/dashboard` and that carries no
`token` cookie is redirected to `/sign_in`; a request to any other path
passes through unmodified whatever its cookies. -/
theorem c7_route_guard (request : NextRequest) :
    (jsStartsWith request.pathname "/dashboard" = true →
      cookiesGet request.cookies "token" = none →
      middleware request =
        MiddlewareResult.redirect
          { pathname := "/sign_in", base := request.url }) ∧
    (jsStartsWith request.pathname "/dashboard" = false →
      middleware request = MiddlewareResult.next) := by
  refine ⟨fun hp hc => ?_, fun hp => ?_⟩
  · simp [middleware, hp, hc, jsTruthy]
  · simp [middleware, hp]

/-- Witness for C7: a cookie-less dashboard request is redirected, and a
request outside the protected prefix passes through though a cookie is set. -/
theorem c7_route_guard_witness :
    middleware ⟨[], "/dashboard/settings", "http://localhost:3000/dashboard/settings"⟩ =
      MiddlewareResult.redirect ⟨"/sign_in", "http://localhost:3000/dashboard/settings"⟩ ∧
    middleware ⟨[("token", "abc")], "/about", "http://localhost:3000/about"⟩ =
      MiddlewareResult.next :=
  ⟨(c7_route_guard ⟨[], "/dashboard/settings", "http://localhost:3000/dashboard/settings"⟩).1
     (by decide) (by decide),
   (c7_route_guard ⟨[("token", "abc")], "/about", "http://localhost:3000/about"⟩).2
     (by decide)⟩

/-- C8 as stated is false: a dashboard request whose `token` cookie holds
the empty string is redirected rather than passed through, because the
guard tests JavaScript truthiness, not cookie presence. -/
theorem c8_any_cookie_passes_counterexample :
    ¬ middleware ⟨[("token", "")], "/dashboard", "http://localhost:3000/dashboard"⟩ =
      MiddlewareResult.next := by
  decide

/-- C8 (amended): a request to a protected path carrying a `token` cookie
with any nonempty content (validity not verified) passes through the
guard unmodified without redirecting. -/
theorem c8_nonempty_cookie_passes (request : NextRequest) (v : String)
    (hp : jsStartsWith request.pathname "/dashboard" = true)
    (hc : cookiesGet request.cookies "token" = some v) (hv : v ≠ "") :
    middleware request = MiddlewareResult.next := by
  simp [middleware, hp, hc, jsTruthy, hv]

/-- Witness for the amended C8 on a dashboard request with cookie value
`abc`. -/
theorem c8_nonempty_cookie_passes_witness :
    jsStartsWith "/dashboard/settings" "/dashboard" = true ∧
    cookiesGet [("token", "abc")] "token" = some "abc" ∧
    "abc" ≠ "" ∧
    middleware ⟨[("token", "abc")], "/dashboard/settings", "http://localhost:3000/dashboard/settings"⟩ =
      MiddlewareResult.next :=
  ⟨by decide, by decide, by decide,
   c8_nonempty_cookie_passes
     ⟨[("token", "abc")], "/dashboard/settings", "http://localhost:3000/dashboard/settings"⟩
     "abc" (by decide) (by decide) (by decide)⟩

/-- C9: an empty-string credential counts as absent at both interfaces:
the request interceptor attaches nothing when the stored token is the
empty string, and the guard redirects a protected-path request whose
`token` cookie is the empty string. -/
theorem c9_empty_string_treated_absent (cfg : RequestConfig)
    (request : NextRequest)
    (hp : jsStartsWith request.pathname "/dashboard" = true)
    (hc : cookiesGet request.cookies "token" = some "") :
    requestInterceptorFulfilled (some "") cfg = cfg ∧
    middleware request =
      MiddlewareResult.redirect
        { pathname := "/sign_in", base := request.url } := by
  refine ⟨?_, ?_⟩
  · simp [requestInterceptorFulfilled, localStorageGetItem, jsTruthy]
  · simp [middleware, hp, hc, jsTruthy]

/-- Witness for C9 on a header-less request and a dashboard request with
an empty `token` cookie. -/
theorem c9_empty_string_treated_absent_witness :
    jsStartsWith "/dashboard" "/dashboard" = true ∧
    cookiesGet [("token", "")] "token" = some "" ∧
    (requestInterceptorFulfilled (some "") ⟨⟨none⟩⟩ = ⟨⟨none⟩⟩ ∧
     middleware ⟨[("token", "")], "/dashboard", "http://localhost:3000/dashboard"⟩ =
      MiddlewareResult.redirect ⟨"/sign_in", "http://localhost:3000/dashboard"⟩) :=
  ⟨by decide, by decide,
   c9_empty_string_treated_absent ⟨⟨none⟩⟩
     ⟨[("token", "")], "/dashboard", "http://localhost:3000/dashboard"⟩
     (by decide) (by decide)⟩

/-- C10 contradicts the code: at a window-less handled 401 the unguarded
`localStorage.removeItem('token')` throws a `ReferenceError` before the
window check and before `Promise.reject(error)`, so the token is not
removed and the caller receives the thrown error instead of the original
401. The explicit `typeof window` guard on the navigation shows
window-less execution was anticipated, so the claim — that token
clearing and error propagation do not depend on navigation being
available — states the evident intent, and the unguarded removal is the
slip. This theorem evaluates the handler at the failing input. -/
theorem c10_server_side_401_crash :
    responseInterceptorRejected false (some "abc")
        { response := some { status := 401 } } =
      { store := some "abc", navigations := [],
        result := Except.error
          (JsError.referenceError localStorageUndefinedMessage) } := by
  decide

end Skyframe
